import Mathlib

namespace B2B

/-! Shallow embedding of the analysis-job orchestration in src/app.py:
the sliding-window rate limiter (can_run), the research post-processing
(escape stripping and citation appending), the cost computation over a
model of IEEE binary64 arithmetic, the run-analysis orchestration body,
and the start-button handler. -/

/-- Window length in seconds of the sliding-window rate limiter
(ALLOWED_WINDOW in app.py line 166). -/
def ALLOWED_WINDOW : Int := 300

/-- Maximum admitted runs per window (MAX_RUNS in app.py line 167). -/
def MAX_RUNS : Nat := 3

/-- Pruning step inside can_run: keep timestamps t with now - t < ALLOWED_WINDOW
(the list comprehension in app.py line 207). -/
def prune (now : Int) (runs : List Int) : List Int :=
  runs.filter (fun t => now - t < ALLOWED_WINDOW)

/-- Result of one admission check: the pair returned by can_run together with
the per-user run list as stored in session state after the call. -/
structure CanRunResult where
  ok : Bool
  wait : Int
  runs : List Int
deriving DecidableEq

/-- Embedding of can_run (app.py lines 204-213) for a fixed user: prune the
stored timestamps, deny with the computed wait when MAX_RUNS entries remain,
otherwise append now and write the list back to the store. On denial the
function returns before the write-back, so the stored list is unchanged.
Timestamps are modelled as integer seconds. -/
def can_run (stored : List Int) (now : Int) : CanRunResult :=
  let runs := prune now stored
  if runs.length ≥ MAX_RUNS then
    ⟨false, ALLOWED_WINDOW - (now - runs.headD 0), stored⟩
  else
    ⟨true, 0, runs ++ [now]⟩

/-- Written from the words of the spec, section 4.2, for comparison with
can_run: prune entries where now - timestamp >= WINDOW_SECONDS; if the
remaining count is below MAX_RUNS, append now and allow; otherwise deny with
retryAfterSeconds computed from the oldest remaining timestamp. -/
def admitSpec (stored : List Int) (now : Int) : CanRunResult :=
  let remaining := stored.filter (fun t => ¬ (now - t ≥ ALLOWED_WINDOW))
  if remaining.length < MAX_RUNS then
    ⟨true, 0, remaining ++ [now]⟩
  else
    ⟨false, ALLOWED_WINDOW - (now - remaining.headD 0), stored⟩

/-! Rational helpers built on mkRat, used by the binary64 model below.
They are ordinary rational arithmetic, written so that concrete values
reduce inside the kernel. -/

/-- Product of two rationals. -/
def qmul (a b : ℚ) : ℚ := mkRat (a.num * b.num) (a.den * b.den)

/-- Sum of two rationals. -/
def qadd (a b : ℚ) : ℚ := mkRat (a.num * b.den + b.num * a.den) (a.den * b.den)

/-- Difference of two rationals. -/
def qsub (a b : ℚ) : ℚ := mkRat (a.num * b.den - b.num * a.den) (a.den * b.den)

/-- Division of a rational by a positive natural number. -/
def qdivN (a : ℚ) (n : Nat) : ℚ := mkRat a.num (a.den * n)

/-- The rational 2 to the power e, for an integer e. -/
def pow2 (e : Int) : ℚ := if 0 ≤ e then mkRat (2 ^ e.toNat) 1 else mkRat 1 (2 ^ (-e).toNat)

/-- Candidate binary exponents, covering magnitudes from 2 ^ (-80) to 2 ^ 80;
every number arising in the cost computation lies well inside this range. -/
def expCandidates : List Int := (List.range 161).map (fun i => (i : Int) - 80)

/-- Largest candidate exponent e with 2 ^ e ≤ a, for a positive rational a
in the covered range. -/
def floorLog2 (a : ℚ) : Int :=
  ((expCandidates.filter (fun e => !(Rat.blt a (pow2 e)))).getLast?).getD 0

/-- Nearest integer to a rational, ties going to the even integer. -/
def rnd (x : ℚ) : Int :=
  let f := Rat.floor x
  let r := qsub x (mkRat f 1)
  if Rat.blt r (mkRat 1 2) then f
  else if Rat.blt (mkRat 1 2) r then f + 1
  else if f % 2 = 0 then f else f + 1

/-- Rounding of a positive rational to a 53-bit significand: the value of the
nearest IEEE binary64 number, for magnitudes in the covered range. -/
def flPos (a : ℚ) : ℚ :=
  let e := floorLog2 a
  let m := rnd (qmul a (pow2 (52 - e)))
  qmul (mkRat m 1) (pow2 (e - 52))

/-- Value of the IEEE binary64 double nearest to the rational q (round to
nearest, ties to even), modelling CPython float arithmetic results in the
normal range. -/
def fl (q : ℚ) : ℚ :=
  if q.num = 0 then 0
  else if q.num < 0 then qsub 0 (flPos (qsub 0 q)) else flPos q

/-- Float product: the double nearest to the exact product. -/
def fmul (x y : ℚ) : ℚ := fl (qmul x y)

/-- Float sum: the double nearest to the exact sum. -/
def fadd (x y : ℚ) : ℚ := fl (qadd x y)

/-- Float true division by a positive natural number, as in the Python
expression tokens / 1000: the double nearest to the exact quotient. -/
def fdivN (x : ℚ) (n : Nat) : ℚ := fl (qdivN x n)

/-- The Python builtin round(x, 4) on a float x: the value is rounded to the
closest multiple of 10 ^ (-4), ties to even, and the result is the double
nearest to that decimal value. -/
def pyRound4 (x : ℚ) : ℚ := fl (mkRat (rnd (qmul x (mkRat 10000 1))) 10000)

/-- Perplexity per-1000-token rate: float of the default env value 0.01
(app.py line 32). -/
def PERPLEXITY_RATE : ℚ := fl (mkRat 1 100)

/-- OpenRouter per-1000-token rate: float of the default env value 0.005
(app.py line 31). -/
def OPENROUTER_RATE : ℚ := fl (mkRat 5 1000)

/-- Fixed USD to EUR conversion used in the cost block: the float literal 0.92
(app.py line 689). -/
def eur_rate : ℚ := fl (mkRat 92 100)

/-- Cost of one stage, app.py lines 686-687: round(tokens / 1000 * rate, 4)
evaluated in Python float arithmetic. -/
def stageCost (tokens : Nat) (rate : ℚ) : ℚ :=
  pyRound4 (fmul (fdivN (mkRat tokens 1) 1000) rate)

/-- Total cost in USD, app.py line 688: cost_px + cost_or. -/
def total_usd (pxTokens orTokens : Nat) : ℚ :=
  fadd (stageCost pxTokens PERPLEXITY_RATE) (stageCost orTokens OPENROUTER_RATE)

/-- Total cost in EUR, app.py line 690: round(total_usd * eur_rate, 4). -/
def total_eur (pxTokens orTokens : Nat) : ℚ :=
  pyRound4 (fmul (total_usd pxTokens orTokens) eur_rate)

/-! Research-stage post-processing (app.py lines 624-639). -/

/-- Removal of the ASCII ESC character, embedding the two replace calls of
app.py line 636; both Python literals name the same character U+001B, so the
pair of calls removes every occurrence of that character. -/
def stripEsc (s : String) : String :=
  String.mk (s.data.filter (fun c => c ≠ '\x1b'))

/-- Leading and trailing whitespace removal, embedding the Python str.strip
calls applied to response content. -/
def pyStrip (s : String) : String :=
  String.mk (((s.data.dropWhile Char.isWhitespace).reverse.dropWhile Char.isWhitespace).reverse)

/-- One entry of the citations list of the research response: isDict records
whether the entry is a JSON object, url its url field if present. A url value
is usable when it is present and non-empty, matching the Python truthiness
test on c.get of the url key. -/
structure Citation where
  isDict : Bool
  url : Option String
deriving DecidableEq

/-- The usable url of a citation entry, if any (the filter condition of
app.py lines 630-634). -/
def usableUrl (c : Citation) : Option String :=
  if c.isDict then
    match c.url with
    | some u => if u = "" then none else some u
    | none => none
  else none

/-- The link list extracted from the citations, in original order, without
deduplication (app.py lines 630-634). -/
def links (cs : List Citation) : List String := cs.filterMap usableUrl

/-- The appended sources section of app.py lines 637-639: a fixed heading
followed by one markdown link line per url. -/
def citeSection (ls : List String) : String :=
  "\n\n### Webseiten-Quellen:\n" ++ String.intercalate "\n" (ls.map (fun u => "- [" ++ u ++ "](" ++ u ++ ")"))

/-- Post-processing of the research content, app.py lines 627-639: when the
response carries a citation list and at least one entry has a usable url, the
ESC characters are stripped and the sources section is appended; otherwise
the content is returned unchanged. The none case covers both a missing
citations key and a non-list citations value. -/
def postProcess (content : String) (citations : Option (List Citation)) : String :=
  match citations with
  | some cs =>
    let ls := links cs
    if ls.isEmpty then content
    else stripEsc content ++ citeSection ls
  | none => content

/-! The run-analysis orchestration body (app.py lines 577-747). -/

/-- The three analysis types offered by the selectbox. -/
inductive JobType where
  | firmenanalyse
  | absatzprofil
  | lieferantensuche
deriving DecidableEq

/-- A successful research response: content string, token usage (defaulting
to 0 when absent, hence a plain natural number), optional citation list. -/
structure PxResp where
  content : String
  tokens : Nat
  citations : Option (List Citation)
deriving DecidableEq

/-- A successful formatting response: content string and token usage. -/
structure OrResp where
  content : String
  tokens : Nat
deriving DecidableEq

/-- Inputs of one execution of the run-analysis block. The three cancel
fields are the values of the session flag analysis_cancelled as sampled at
the three points where the code reads it: before dispatching research
(line 597), after research succeeds (line 641), and inside the exception
handler (line 742); the flag is written by a concurrent button-handler run,
so each sample is an independent input. pxResult and orResult are the
provider outcomes; an error value stands for any exception raised while
calling the provider or validating its response. pdfOk tells whether PDF
generation succeeds, pdfBytes the bytes it yields. -/
structure RunInputs where
  choice : JobType
  inputText : String
  cancelPreResearch : Bool
  pxResult : Except String PxResp
  cancelPreFormat : Bool
  orResult : Except String OrResp
  cancelAtError : Bool
  pdfOk : Bool
  pdfBytes : String

/-- Terminal outcome of one job. -/
inductive Outcome where
  | completed
  | cancelled
  | failed (msg : String)
deriving DecidableEq

/-- One row appended to the analyses table by log_analysis (app.py
lines 727-735): analysis type, input, both token counts, the EUR total, and
the optional PDF blob. -/
structure HistoryRow where
  jobType : JobType
  inputText : String
  pxTokens : Nat
  orTokens : Nat
  totalCostEur : ℚ
  artifact : Option String
deriving DecidableEq

/-- Observable trace of one execution of the run-analysis block: the terminal
outcome, whether each provider call was dispatched, the post-processed
research text handed to the formatting stage (when research succeeded), and
the list of history rows appended. -/
structure RunTrace where
  outcome : Outcome
  researchCalled : Bool
  formatCalled : Bool
  researchText : Option String
  appends : List HistoryRow
deriving DecidableEq

/-- Embedding of the run-analysis block, app.py lines 577-747. The body
checks the cancel flag before the research call (lines 597-599); dispatches
research; post-processes the content (strip of the response content, then
citation handling); checks the cancel flag again (lines 641-644); dispatches
formatting; computes costs; attempts PDF generation with a fallback to none
(lines 709-725); appends exactly one history row (lines 728-735). Any
provider exception reaches the handler of lines 741-747, which reports a
failure unless the cancel flag is set there, in which case the stop message
is shown instead. -/
def runAnalysis (i : RunInputs) : RunTrace :=
  if i.cancelPreResearch then
    ⟨Outcome.cancelled, false, false, none, []⟩
  else
    match i.pxResult with
    | Except.error m =>
      ⟨if i.cancelAtError then Outcome.cancelled else Outcome.failed m, true, false, none, []⟩
    | Except.ok px =>
      let pxContent := postProcess (pyStrip px.content) px.citations
      if i.cancelPreFormat then
        ⟨Outcome.cancelled, true, false, some pxContent, []⟩
      else
        match i.orResult with
        | Except.error m =>
          ⟨if i.cancelAtError then Outcome.cancelled else Outcome.failed m,
            true, true, some pxContent, []⟩
        | Except.ok orResp =>
          let te := total_eur px.tokens orResp.tokens
          let pdf := if i.pdfOk then some i.pdfBytes else none
          ⟨Outcome.completed, true, true, some pxContent,
            [⟨i.choice, i.inputText, px.tokens, orResp.tokens, te, pdf⟩]⟩

/-! The start-button handler (app.py lines 556-574). -/

/-- Session state fields touched by the start handler, plus the run list of
the current user inside the runs store. -/
structure UiState where
  analysis_markdown : String
  token_info : String
  analysis_title : String
  analysis_running : Bool
  analysis_cancelled : Bool
  cancel_message : String
  current_user_input : String
  current_prompt_choice : String
  current_search_period : String
  runs : List Int
deriving DecidableEq

/-- Result of the start handler for the caller. -/
inductive StartOutcome where
  | noClick
  | rateLimited (wait : Int)
  | started
deriving DecidableEq

/-- The period_options mapping of app.py lines 446-452. The selectbox offers
exactly these five labels, so the none case is unreachable in the UI. -/
def period_options (l : String) : Option String :=
  if l = "Letzter Tag" then some "day"
  else if l = "Letzte Woche" then some "week"
  else if l = "Letzter Monat" then some "month"
  else if l = "Letztes Jahr" then some "year"
  else if l = "Alle Zeiträume" then some "all"
  else none

/-- Embedding of the start-button handler, app.py lines 556-574: when the
button was clicked and the stripped input is non-empty, ask can_run for
admission; on refusal show the warning and stop (the denial leaves the run
list as returned by can_run); on admission clear the previous results, reset
the cancel flag, mark the analysis as running, record the inputs, and rerun.
The handler contains no check of analysis_running. -/
def handleStart (s : UiState) (start_btn : Bool) (user_input prompt_choice period_label : String)
    (now : Int) : StartOutcome × UiState :=
  if start_btn = true ∧ pyStrip user_input ≠ "" then
    if (can_run s.runs now).ok then
      (StartOutcome.started,
        { s with
          analysis_markdown := ""
          token_info := ""
          analysis_title := ""
          analysis_cancelled := false
          analysis_running := true
          cancel_message := ""
          current_user_input := user_input
          current_prompt_choice := prompt_choice
          current_search_period := (period_options period_label).getD ""
          runs := (can_run s.runs now).runs })
    else
      (StartOutcome.rateLimited (can_run s.runs now).wait,
        { s with runs := (can_run s.runs now).runs })
  else (StartOutcome.noClick, s)

/-! Concrete instances used by witnesses and counterexamples. -/

/-- A concrete session state with a running job, used for claim C1. -/
def s0 : UiState :=
  ⟨"altes Ergebnis", "tok", "Titel", true, false, "", "alt", "Firmenanalyse", "all", []⟩

/-- A concrete successful research response. -/
def pxOk : PxResp := ⟨"Inhalt", 100, none⟩

/-- A concrete successful formatting response. -/
def orOk : OrResp := ⟨"Markdown", 200⟩

/-- Run inputs with a formatting-stage provider error and no cancellation. -/
def iFmtErr : RunInputs :=
  ⟨JobType.firmenanalyse, "Acme", false, Except.ok pxOk, false, Except.error "boom", false, true, "pdf"⟩

/-- Run inputs with a research-stage provider error and cancellation observed
in the handler. -/
def iResErrCancel : RunInputs :=
  ⟨JobType.firmenanalyse, "Acme", false, Except.error "netz", false, Except.ok orOk, true, true, "pdf"⟩

/-- Run inputs with cancellation already requested before research. -/
def iPreCancel : RunInputs :=
  ⟨JobType.firmenanalyse, "Acme", true, Except.ok pxOk, false, Except.ok orOk, false, true, "pdf"⟩

/-- Run inputs with cancellation requested between research and formatting. -/
def iMidCancel : RunInputs :=
  ⟨JobType.firmenanalyse, "Acme", false, Except.ok pxOk, true, Except.ok orOk, false, true, "pdf"⟩

/-- Run inputs where both stages succeed but PDF generation fails. -/
def iPdfFail : RunInputs :=
  ⟨JobType.firmenanalyse, "Acme", false, Except.ok pxOk, false, Except.ok orOk, false, false, "pdf"⟩

/-- Run inputs of a fully successful job. -/
def iDone : RunInputs :=
  ⟨JobType.firmenanalyse, "Acme", false, Except.ok pxOk, false, Except.ok orOk, false, true, "pdf"⟩

/-! Helper lemmas. -/

/-- The admission check and the admission rule written from the spec agree on
every store and time. -/
theorem can_run_eq_admitSpec (stored : List Int) (now : Int) :
    can_run stored now = admitSpec stored now := by
  unfold can_run admitSpec prune
  have hf : stored.filter (fun t => now - t < ALLOWED_WINDOW)
      = stored.filter (fun t => ¬ (now - t ≥ ALLOWED_WINDOW)) := by
    apply List.filter_congr
    intro t _
    by_cases h : now - t < ALLOWED_WINDOW <;> simp [h]
  rw [hf]
  by_cases h : (stored.filter (fun t => ¬ (now - t ≥ ALLOWED_WINDOW))).length < MAX_RUNS
  · rw [if_neg (by omega), if_pos h]
  · rw [if_pos (by omega), if_neg h]

/-- Pruning keeps a list all of whose entries are inside the window. -/
theorem prune_eq_self (now : Int) (l : List Int)
    (h : ∀ t ∈ l, now - t < ALLOWED_WINDOW) : prune now l = l := by
  apply List.filter_eq_self.mpr
  intro a ha
  simpa using h a ha

/-- Shape of an allowed admission. -/
theorem can_run_allowed (stored : List Int) (now : Int)
    (h : (prune now stored).length < MAX_RUNS) :
    can_run stored now = ⟨true, 0, prune now stored ++ [now]⟩ := by
  unfold can_run
  rw [if_neg (by omega)]

/-- Shape of a denied admission. -/
theorem can_run_denied (stored : List Int) (now : Int)
    (h : (prune now stored).length ≥ MAX_RUNS) :
    can_run stored now
      = ⟨false, ALLOWED_WINDOW - (now - (prune now stored).headD 0), stored⟩ := by
  unfold can_run
  rw [if_pos h]

/-- A denied admission leaves the stored list unchanged. -/
theorem can_run_runs_of_denied (stored : List Int) (now : Int)
    (h : (can_run stored now).ok = false) : (can_run stored now).runs = stored := by
  unfold can_run at h ⊢
  by_cases hc : (prune now stored).length ≥ MAX_RUNS
  · rw [if_pos hc]
  · rw [if_neg hc] at h
    simp at h

/-! Claims. -/

/-- Claim C3: each admission check prunes timestamps t with
now - t >= WINDOW_SECONDS, allows and appends now when fewer than MAX_RUNS
remain, and otherwise denies with retryAfterSeconds computed from the oldest
remaining timestamp; moreover, starting from an empty window, three starts
inside one window are admitted and the fourth is denied with a positive
retry-after equal to WINDOW minus the age of the oldest admitted start. -/
theorem c3_rate_limiter :
    (∀ stored now, can_run stored now = admitSpec stored now) ∧
    (∀ t1 t2 t3 t4 : Int, t1 ≤ t2 → t2 ≤ t3 → t3 ≤ t4 → t4 - t1 < ALLOWED_WINDOW →
      can_run [] t1 = ⟨true, 0, [t1]⟩ ∧
      can_run [t1] t2 = ⟨true, 0, [t1, t2]⟩ ∧
      can_run [t1, t2] t3 = ⟨true, 0, [t1, t2, t3]⟩ ∧
      (can_run [t1, t2, t3] t4).ok = false ∧
      (can_run [t1, t2, t3] t4).wait = ALLOWED_WINDOW - (t4 - t1) ∧
      0 < (can_run [t1, t2, t3] t4).wait) := by
  refine ⟨can_run_eq_admitSpec, ?_⟩
  intro t1 t2 t3 t4 h12 h23 h34 hw
  have W : ALLOWED_WINDOW = 300 := rfl
  have p1 : prune t1 [] = [] := rfl
  have p2 : prune t2 [t1] = [t1] := prune_eq_self _ _ (by
    intro t ht
    simp at ht
    omega)
  have p3 : prune t3 [t1, t2] = [t1, t2] := prune_eq_self _ _ (by
    intro t ht
    simp at ht
    rcases ht with rfl | rfl <;> omega)
  have p4 : prune t4 [t1, t2, t3] = [t1, t2, t3] := prune_eq_self _ _ (by
    intro t ht
    simp at ht
    rcases ht with rfl | rfl | rfl <;> omega)
  have h1 : can_run [] t1 = ⟨true, 0, [t1]⟩ := by
    rw [can_run_allowed _ _ (by rw [p1]; norm_num [MAX_RUNS]), p1]
    rfl
  have h2 : can_run [t1] t2 = ⟨true, 0, [t1, t2]⟩ := by
    rw [can_run_allowed _ _ (by rw [p2]; norm_num [MAX_RUNS]), p2]
    rfl
  have h3 : can_run [t1, t2] t3 = ⟨true, 0, [t1, t2, t3]⟩ := by
    rw [can_run_allowed _ _ (by rw [p3]; norm_num [MAX_RUNS]), p3]
    rfl
  have h4 : can_run [t1, t2, t3] t4
      = ⟨false, ALLOWED_WINDOW - (t4 - t1), [t1, t2, t3]⟩ := by
    rw [can_run_denied _ _ (by rw [p4]; norm_num [MAX_RUNS]), p4]
    rfl
  refine ⟨h1, h2, h3, ?_, ?_, ?_⟩
  · rw [h4]
  · rw [h4]
  · rw [h4]
    show (0 : Int) < ALLOWED_WINDOW - (t4 - t1)
    omega

/-- Claim C3 witness at concrete times 0, 1, 2, 3. -/
theorem c3_rate_limiter_witness :
    (can_run [0, 1, 2] 3).ok = false ∧ 0 < (can_run [0, 1, 2] 3).wait := by
  have h := c3_rate_limiter.2 0 1 2 3 (by decide) (by decide) (by decide) (by decide)
  exact ⟨h.2.2.2.1, h.2.2.2.2.2⟩

/-- Claim C10: a denied admission leaves the stored window untouched, and an
allowed admission stores exactly the pruned window extended by now. -/
theorem c10_denial_no_write (stored : List Int) (now : Int) :
    ((can_run stored now).ok = false → (can_run stored now).runs = stored) ∧
    ((can_run stored now).ok = true → (can_run stored now).runs = prune now stored ++ [now]) := by
  constructor
  · exact can_run_runs_of_denied stored now
  · intro h
    unfold can_run at h ⊢
    by_cases hc : (prune now stored).length ≥ MAX_RUNS
    · rw [if_pos hc] at h
      simp at h
    · rw [if_neg hc]

/-- Claim C10 witness: a denied check on the full window 0, 1, 2 at time 3
stores the same list, and an allowed check on the empty window appends. -/
theorem c10_denial_no_write_witness :
    (can_run [0, 1, 2] 3).runs = [0, 1, 2] ∧ (can_run [] 0).runs = prune 0 [] ++ [0] := by
  exact ⟨(c10_denial_no_write [0, 1, 2] 3).1 (by decide),
    (c10_denial_no_write [] 0).2 (by decide)⟩

/-- Claim C1 counterexample: the state s0 has a running job, yet a start
click is admitted, begins a new job and rewrites the session state; no
rejection of the duplicate start exists in the handler. -/
theorem c1_counterexample :
    s0.analysis_running = true ∧
    (handleStart s0 true "x" "Firmenanalyse" "Alle Zeiträume" 0).1 = StartOutcome.started ∧
    (handleStart s0 true "x" "Firmenanalyse" "Alle Zeiträume" 0).2 ≠ s0 ∧
    (handleStart s0 true "x" "Firmenanalyse" "Alle Zeiträume" 0).2.current_user_input = "x" := by
  refine ⟨rfl, by decide, by decide, by decide⟩

/-- Claim C1 as amended: while a job is running, a second start is subject
only to rate-limit admission; when admitted it clears the previous results,
resets the cancel flag and begins a new job in place of the running one; when
denied it reports the rate limit and leaves the state unchanged. -/
theorem c1_second_start (s : UiState) (inp pc pl : String) (now : Int)
    (_hrun : s.analysis_running = true) (hinp : pyStrip inp ≠ "") :
    ((can_run s.runs now).ok = true →
      (handleStart s true inp pc pl now).1 = StartOutcome.started ∧
      (handleStart s true inp pc pl now).2.analysis_running = true ∧
      (handleStart s true inp pc pl now).2.analysis_markdown = "" ∧
      (handleStart s true inp pc pl now).2.analysis_cancelled = false ∧
      (handleStart s true inp pc pl now).2.current_user_input = inp) ∧
    ((can_run s.runs now).ok = false →
      (handleStart s true inp pc pl now).1 = StartOutcome.rateLimited (can_run s.runs now).wait ∧
      (handleStart s true inp pc pl now).2 = s) := by
  constructor
  · intro hok
    unfold handleStart
    rw [if_pos ⟨rfl, hinp⟩, if_pos hok]
    exact ⟨rfl, rfl, rfl, rfl, rfl⟩
  · intro hdeny
    unfold handleStart
    rw [if_pos ⟨rfl, hinp⟩, if_neg (by simp [hdeny])]
    refine ⟨rfl, ?_⟩
    rw [can_run_runs_of_denied s.runs now hdeny]

/-- Claim C1 witness: the amended statement applied to the running state s0
with an admitted second start. -/
theorem c1_second_start_witness :
    (handleStart s0 true "x" "Firmenanalyse" "Alle Zeiträume" 0).1 = StartOutcome.started ∧
    (handleStart s0 true "x" "Firmenanalyse" "Alle Zeiträume" 0).2.current_user_input = "x" := by
  have h := (c1_second_start s0 "x" "Firmenanalyse" "Alle Zeiträume" 0 rfl (by decide)).1 (by decide)
  exact ⟨h.1, h.2.2.2.2⟩

/-- Post-processing with no citation list leaves the content unchanged. -/
theorem postProcess_none (content : String) : postProcess content none = content := rfl

/-- Post-processing with a citation list holding no usable url leaves the
content unchanged. -/
theorem postProcess_noLinks (content : String) (cs : List Citation) (h : links cs = []) :
    postProcess content (some cs) = content := by
  simp [postProcess, h]

/-- Post-processing with at least one usable url strips ESC and appends the
sources section. -/
theorem postProcess_links (content : String) (cs : List Citation) (h : links cs ≠ []) :
    postProcess content (some cs) = stripEsc content ++ citeSection (links cs) := by
  simp [postProcess, List.isEmpty_iff, h]

/-- Claim C2 counterexample: content holding an ESC character is returned
with the ESC intact when the response has no citation list, and also when the
citation list has no usable url; stripping would have removed it. -/
theorem c2_counterexample :
    postProcess "A\x1b" none = "A\x1b" ∧
    postProcess "A\x1b" (some [⟨true, none⟩]) = "A\x1b" ∧
    stripEsc "A\x1b" = "A" := by
  exact ⟨rfl, by decide, by decide⟩

/-- Claim C2 as amended: ESC stripping is not unconditional; it runs exactly
when the response carries a citation list with at least one usable url, and
then immediately before the citation section is appended. With no citation
list, or none with a usable url, the content is returned with ESC characters
intact. -/
theorem c2_strip_conditional (content : String) (cs : List Citation) :
    postProcess content none = content ∧
    (links cs = [] → postProcess content (some cs) = content) ∧
    (links cs ≠ [] → postProcess content (some cs) = stripEsc content ++ citeSection (links cs)) :=
  ⟨postProcess_none content, postProcess_noLinks content cs, postProcess_links content cs⟩

/-- Claim C2 witness: the amended statement at concrete inputs, one with a
usable citation (stripped, section appended) and one without (ESC intact). -/
theorem c2_strip_conditional_witness :
    postProcess "B\x1b" (some [⟨true, some "u"⟩]) = "B\n\n### Webseiten-Quellen:\n- [u](u)" ∧
    postProcess "B\x1b" (some [⟨true, none⟩]) = "B\x1b" := by
  exact ⟨((c2_strip_conditional "B\x1b" [⟨true, some "u"⟩]).2.2 (by decide)).trans (by decide),
    (c2_strip_conditional "B\x1b" [⟨true, none⟩]).2.1 (by decide)⟩

/-- Claim C7: with at least one usable citation url, the post-processed text
is the (ESC-stripped) content followed by the fixed-heading section listing
each usable url as a markdown link, in original order, without
deduplication, entries without a usable url being skipped silently; on
content A with the single citation url https://x the result is exactly the
expected string. -/
theorem c7_citations (content : String) (cs : List Citation) (h : links cs ≠ []) :
    postProcess content (some cs)
      = stripEsc content ++ ("\n\n### Webseiten-Quellen:\n"
        ++ String.intercalate "\n" ((links cs).map (fun u => "- [" ++ u ++ "](" ++ u ++ ")"))) ∧
    postProcess "A" (some [⟨true, some "https://x"⟩])
      = "A\n\n### Webseiten-Quellen:\n- [https://x](https://x)" ∧
    postProcess "A" (some [⟨true, some "u1"⟩, ⟨true, none⟩, ⟨false, some "u2"⟩, ⟨true, some "u3"⟩])
      = "A\n\n### Webseiten-Quellen:\n- [u1](u1)\n- [u3](u3)" ∧
    postProcess "A" (some [⟨true, some "u"⟩, ⟨true, some "u"⟩])
      = "A\n\n### Webseiten-Quellen:\n- [u](u)\n- [u](u)" := by
  exact ⟨(postProcess_links content cs h).trans rfl, by decide, by decide, by decide⟩

/-- Claim C7 witness at a concrete citation list. -/
theorem c7_citations_witness :
    postProcess "C" (some [⟨true, some "w"⟩]) = "C\n\n### Webseiten-Quellen:\n- [w](w)" := by
  exact ((c7_citations "C" [⟨true, some "w"⟩] (by decide)).1).trans (by decide)

/-- Claim C4: a run appends exactly one history row when it completes and
none otherwise; in particular a formatting-stage provider error after a
successful research stage, with no cancellation, fails with the provider
message and appends nothing. -/
theorem c4_history_appends (i : RunInputs) :
    ((runAnalysis i).appends.length
      = if (runAnalysis i).outcome = Outcome.completed then 1 else 0) ∧
    (∀ px m, i.cancelPreResearch = false → i.pxResult = Except.ok px →
      i.cancelPreFormat = false → i.orResult = Except.error m → i.cancelAtError = false →
      (runAnalysis i).outcome = Outcome.failed m ∧ (runAnalysis i).appends = []) := by
  obtain ⟨ch, inp, c1, px, c2, orr, ce, pok, pb⟩ := i
  constructor
  · cases c1 <;> cases px <;> cases c2 <;> cases orr <;> cases ce <;> cases pok <;>
      simp [runAnalysis]
  · rintro p m rfl rfl rfl rfl rfl
    simp [runAnalysis]

/-- Claim C4 witness: the formatting-error run appends nothing and fails. -/
theorem c4_history_appends_witness :
    (runAnalysis iFmtErr).outcome = Outcome.failed "boom" ∧ (runAnalysis iFmtErr).appends = [] :=
  (c4_history_appends iFmtErr).2 pxOk "boom" rfl rfl rfl rfl rfl

/-- Claim C5: when a stage fails with a provider error, the run fails with
that message if the cancel flag is not set at the handler, and is cancelled
if it is; cancellation takes precedence over failure at both stages. -/
theorem c5_cancel_precedence (i : RunInputs) (m : String) :
    (i.cancelPreResearch = false → i.pxResult = Except.error m →
      (runAnalysis i).outcome
        = if i.cancelAtError then Outcome.cancelled else Outcome.failed m) ∧
    (∀ px, i.cancelPreResearch = false → i.pxResult = Except.ok px →
      i.cancelPreFormat = false → i.orResult = Except.error m →
      (runAnalysis i).outcome
        = if i.cancelAtError then Outcome.cancelled else Outcome.failed m) := by
  obtain ⟨ch, inp, c1, px, c2, orr, ce, pok, pb⟩ := i
  constructor
  · rintro rfl rfl
    cases ce <;> simp [runAnalysis]
  · rintro p rfl rfl rfl rfl
    cases ce <;> simp [runAnalysis]

/-- Claim C5 witness: a research-stage error with the cancel flag set ends
cancelled, and a formatting-stage error without it ends failed. -/
theorem c5_cancel_precedence_witness :
    (runAnalysis iResErrCancel).outcome = Outcome.cancelled ∧
    (runAnalysis iFmtErr).outcome = Outcome.failed "boom" := by
  refine ⟨((c5_cancel_precedence iResErrCancel "netz").1 rfl rfl).trans (by decide), ?_⟩
  exact ((c5_cancel_precedence iFmtErr "boom").2 pxOk rfl rfl rfl rfl).trans (by decide)

/-- Claim C8: cancellation observed before the research checkpoint yields a
cancelled run with no research call, no formatting call and no history
append; cancellation observed at the pre-formatting checkpoint yields a
cancelled run in which the formatting stage never runs and nothing is
appended. -/
theorem c8_cancel_before_dispatch (i : RunInputs) :
    (i.cancelPreResearch = true →
      (runAnalysis i).outcome = Outcome.cancelled ∧
      (runAnalysis i).researchCalled = false ∧
      (runAnalysis i).formatCalled = false ∧
      (runAnalysis i).appends = []) ∧
    (∀ px, i.cancelPreResearch = false → i.pxResult = Except.ok px →
      i.cancelPreFormat = true →
      (runAnalysis i).outcome = Outcome.cancelled ∧
      (runAnalysis i).formatCalled = false ∧
      (runAnalysis i).appends = []) := by
  obtain ⟨ch, inp, c1, px, c2, orr, ce, pok, pb⟩ := i
  constructor
  · rintro rfl
    simp [runAnalysis]
  · rintro p rfl rfl rfl
    simp [runAnalysis]

/-- Claim C8 witness: the pre-research cancellation run and the
pre-formatting cancellation run. -/
theorem c8_cancel_before_dispatch_witness :
    ((runAnalysis iPreCancel).outcome = Outcome.cancelled ∧
      (runAnalysis iPreCancel).researchCalled = false ∧
      (runAnalysis iPreCancel).formatCalled = false ∧
      (runAnalysis iPreCancel).appends = []) ∧
    ((runAnalysis iMidCancel).outcome = Outcome.cancelled ∧
      (runAnalysis iMidCancel).formatCalled = false ∧
      (runAnalysis iMidCancel).appends = []) :=
  ⟨(c8_cancel_before_dispatch iPreCancel).1 rfl,
    (c8_cancel_before_dispatch iMidCancel).2 pxOk rfl rfl rfl⟩

/-- Claim C9: when both stages succeed, a PDF-generation failure does not
prevent completion; the history row is still appended, with the artifact
absent. -/
theorem c9_pdf_nonfatal (i : RunInputs) (px : PxResp) (orr : OrResp)
    (h1 : i.cancelPreResearch = false) (h2 : i.pxResult = Except.ok px)
    (h3 : i.cancelPreFormat = false) (h4 : i.orResult = Except.ok orr)
    (h5 : i.pdfOk = false) :
    (runAnalysis i).outcome = Outcome.completed ∧
    (runAnalysis i).appends
      = [⟨i.choice, i.inputText, px.tokens, orr.tokens, total_eur px.tokens orr.tokens, none⟩] := by
  obtain ⟨ch, inp, c1, pxr, c2, orrr, ce, pok, pb⟩ := i
  subst h1 h2 h3 h4 h5
  simp [runAnalysis]

/-- Claim C9 witness: the successful run with failing PDF generation. -/
theorem c9_pdf_nonfatal_witness :
    (runAnalysis iPdfFail).outcome = Outcome.completed ∧
    (runAnalysis iPdfFail).appends
      = [⟨JobType.firmenanalyse, "Acme", 100, 200, total_eur 100 200, none⟩] :=
  c9_pdf_nonfatal iPdfFail pxOk orOk rfl rfl rfl rfl rfl

/-- Claim C6: stage cost is the pure function round(tokens / 1000 * rate, 4)
in float arithmetic, the USD total is the sum of the two stage costs, the
EUR total is round(totalUsd * 0.92, 4); at 12345 tokens and rate 0.01 the
stage cost is exactly the float 0.1235 (the float product lies strictly
above 0.12345, so the 4-digit decimal rounding goes up); and the cost
recorded in the appended history row is exactly this pure function of the
two token counts. -/
theorem c6_cost_accounting :
    stageCost 12345 PERPLEXITY_RATE = fl (mkRat 1235 10000) ∧
    (∀ t r, stageCost t r = pyRound4 (fmul (fdivN (mkRat t 1) 1000) r)) ∧
    (∀ px orT, total_usd px orT
        = fadd (stageCost px PERPLEXITY_RATE) (stageCost orT OPENROUTER_RATE) ∧
      total_eur px orT = pyRound4 (fmul (total_usd px orT) eur_rate)) ∧
    (∀ i px orr, i.cancelPreResearch = false → i.pxResult = Except.ok px →
      i.cancelPreFormat = false → i.orResult = Except.ok orr →
      (runAnalysis i).appends.map HistoryRow.totalCostEur = [total_eur px.tokens orr.tokens]) := by
  refine ⟨by decide, fun t r => rfl, fun px orT => ⟨rfl, rfl⟩, ?_⟩
  intro i px orr h1 h2 h3 h4
  obtain ⟨ch, inp, c1, pxr, c2, orrr, ce, pok, pb⟩ := i
  subst h1 h2 h3 h4
  simp [runAnalysis]

/-- Claim C6 witness: the cost recorded by the fully successful run at 100
research tokens and 200 formatting tokens. -/
theorem c6_cost_accounting_witness :
    (runAnalysis iDone).appends.map HistoryRow.totalCostEur = [total_eur 100 200] :=
  c6_cost_accounting.2.2.2 iDone pxOk orOk rfl rfl rfl rfl

end B2B
